import Mathlib

/-!
Verification of the in-memory todo backend simulation
(`src/api/todo-api.ts` and `src/api/fake-socket.ts`).

The TypeScript code is shallowly embedded as pure Lean functions.  Each
asynchronous operation of `TodoApi` is modelled as a function taking the
current store, the outcome of the random success draw (`success : Bool`,
standing for `Math.random() < successRate`), and the operation's arguments;
it returns the settled promise value, the store after the handler body ran,
and the list of messages handed to `fakeSocket.dispatchMessage` during the
body.  The simulated latency (`setTimeout` with a random delay) only delays
the handler; it does not change what the handler computes, so it is not
modelled.

A crucial point of fidelity: in the TypeScript source the index checks call
`reject(...)` WITHOUT returning, so the handler body keeps executing after
flagging a 400 error; a promise keeps its first settlement, so the caller
sees the 400, but the mutation statements and the dispatch still run.  The
embedding reproduces this: the settled result and the final store are
computed independently, exactly as the handler body does.
-/

/-- A single to-do entry (`Todo` in the source): `description`/`done`. -/
structure Todo where
  description : String
  done : Bool
deriving DecidableEq, Repr

/-- A named list of todos (`TodoList` in the source). -/
structure TodoList where
  items : List Todo
  name : String
deriving DecidableEq, Repr

/-- The error payload built by `TodoApi.buildErrorResponse`. -/
structure ApiError where
  code : Int
  description : String
deriving DecidableEq, Repr

/-- `TodoApi.buildErrorResponse(code, description)`. -/
def buildErrorResponse (code : Int) (description : String) : ApiError :=
  { code := code, description := description }

/-- The messages handed to `fakeSocket.dispatchMessage` (`RawMessage` in
`fake-socket.ts`), one constructor per mutating operation. -/
inductive RawMessage where
  | createList (message : TodoList)
  | deleteList (index : Int)
  | addToDo (listIndex : Int) (item : Todo)
  | removeTodo (listIndex : Int) (itemIndex : Int)
  | moveTodo (listIndex : Int) (sourceIndex : Int) (destIndex : Int)
  | editTodo (listIndex : Int) (itemIndex : Int) (newValue : Todo)
deriving DecidableEq, Repr

/-- Outcome of one `TodoApi` call: the value the promise settled with
(`Except.error` for a rejection), the store (`this.todos`) after the
handler body finished, and the messages dispatched on the fake socket
during the body, in order. -/
structure OpResult (α : Type) where
  result : Except ApiError α
  store : List TodoList
  dispatched : List RawMessage
deriving Repr

/-- JavaScript array read `arr[i]`: `undefined` (here `none`) for a
negative index or an index at or beyond the length. -/
def jsIndex? (l : List α) (i : Int) : Option α :=
  if 0 ≤ i then l.get? i.toNat else none

/-- The effective start position of `Array.prototype.splice(start, ...)`:
negative `start` counts from the end and is clamped below at 0
(`Int.toNat` clamps negatives to 0); nonnegative `start` is clamped
above at the length. -/
def jsActualIndex (len : Nat) (start : Int) : Nat :=
  if start < 0 then (len + start).toNat else min start.toNat len

/-- `arr.splice(start, 1)`: returns the (0- or 1-element) list of removed
elements and the remaining array. -/
def jsSpliceDelete1 (l : List α) (start : Int) : List α × List α :=
  let a := jsActualIndex l.length start
  ((l.drop a).take 1, l.eraseIdx a)

/-- `arr.splice(start, 0, ...vs)`: inserts `vs` at the effective start
position and returns the new array. -/
def jsSpliceInsert (l : List α) (start : Int) (vs : List α) : List α :=
  let a := jsActualIndex l.length start
  l.take a ++ vs ++ l.drop a

/-- JavaScript indexed write `arr[i] = v` for the in-range and negative
cases: an in-range index replaces the element; a negative index stores a
non-index property on the array object and leaves the elements unchanged.
A write at `i ≥ length` would create a sparse array, which a `List Todo`
cannot represent; no theorem below depends on that case, and it is
likewise modelled as leaving the element sequence unchanged. -/
def jsSetElem (l : List α) (i : Int) (v : α) : List α :=
  if 0 ≤ i ∧ i.toNat < l.length then l.set i.toNat v else l

/-- The `{...todo}` spread copy of a `Todo` in `getTodoLists`. -/
def copyTodo (t : Todo) : Todo :=
  { description := t.description, done := t.done }

/-- The per-list copy made by `getTodoLists`: new list object with the
same `name` and a spread-copied `items` array. -/
def copyTodoList (l : TodoList) : TodoList :=
  { name := l.name, items := l.items.map copyTodo }

/-- `TodoApi.getTodoLists()`: on success, resolves with a deep value copy
of the store and mutates nothing; on a failed draw, rejects with
500 "internal error". -/
def getTodoLists (todos : List TodoList) (success : Bool) :
    OpResult (List TodoList) :=
  if success then
    { result := Except.ok (todos.map copyTodoList)
      store := todos
      dispatched := [] }
  else
    { result := Except.error (buildErrorResponse 500 "internal error")
      store := todos
      dispatched := [] }

/-- `TodoApi.createList(name)`: pushes `{name, items: []}`, dispatches a
`createList` message carrying the name and a spread copy of the (empty)
items of the just-pushed list, and resolves with `push`'s return value
(the new length) minus one. -/
def createList (todos : List TodoList) (success : Bool) (name : String) :
    OpResult Int :=
  if success then
    let todos' := todos ++ [{ name := name, items := [] }]
    { result := Except.ok ((todos'.length : Int) - 1)
      store := todos'
      dispatched := [RawMessage.createList { name := name, items := [] }] }
  else
    { result := Except.error (buildErrorResponse 500 "internal error")
      store := todos
      dispatched := [] }

/-- `TodoApi.deleteList(listIndex)`.  On a bad index the handler calls
`reject(400)` but does not return, so the `splice` and the dispatch still
run and the promise keeps its first settlement (the 400). -/
def deleteList (todos : List TodoList) (success : Bool) (listIndex : Int) :
    OpResult Bool :=
  if success then
    let bad := listIndex < 0 ∨ (todos.length : Int) ≤ listIndex
    { result := if bad then Except.error (buildErrorResponse 400 "index out of bound")
        else Except.ok true
      store := (jsSpliceDelete1 todos listIndex).2
      dispatched := [RawMessage.deleteList listIndex] }
  else
    { result := Except.error (buildErrorResponse 500 "internal error")
      store := todos
      dispatched := [] }

/-- `TodoApi.addTodo(listIndex, item)`.  A bad index rejects with 400 and
then `this.todos[listIndex].items.push` throws a TypeError (undefined
list), caught by the `catch`, whose `reject(500)` is ignored because the
promise is already rejected: no mutation and no dispatch happen.  An
in-range index pushes a spread copy of the item and dispatches once. -/
def addTodo (todos : List TodoList) (success : Bool) (listIndex : Int)
    (item : Todo) : OpResult Bool :=
  if success then
    match jsIndex? todos listIndex with
    | some l =>
      { result := Except.ok true
        store := todos.set listIndex.toNat { l with items := l.items ++ [copyTodo item] }
        dispatched := [RawMessage.addToDo listIndex (copyTodo item)] }
    | none =>
      { result := Except.error (buildErrorResponse 400 "index out of bound")
        store := todos
        dispatched := [] }
  else
    { result := Except.error (buildErrorResponse 500 "internal error")
      store := todos
      dispatched := [] }

/-- `TodoApi.removeTodo(listIndex, todoIndex)`.  The `||` check
short-circuits, so a bad `listIndex` rejects 400 and the subsequent
`.items` access throws (no mutation, no dispatch).  With a valid
`listIndex` but bad `todoIndex`, `reject(400)` does not return: the
`splice` (with JavaScript clamping/negative-index semantics) and the
dispatch still run. -/
def removeTodo (todos : List TodoList) (success : Bool) (listIndex : Int)
    (todoIndex : Int) : OpResult Bool :=
  if success then
    match jsIndex? todos listIndex with
    | some l =>
      let bad := todoIndex < 0 ∨ (l.items.length : Int) ≤ todoIndex
      { result := if bad then Except.error (buildErrorResponse 400 "index out of bound")
          else Except.ok true
        store := todos.set listIndex.toNat
          { l with items := (jsSpliceDelete1 l.items todoIndex).2 }
        dispatched := [RawMessage.removeTodo listIndex todoIndex] }
    | none =>
      { result := Except.error (buildErrorResponse 400 "index out of bound")
        store := todos
        dispatched := [] }
  else
    { result := Except.error (buildErrorResponse 500 "internal error")
      store := todos
      dispatched := [] }

/-- `TodoApi.moveTodo(listIndex, sourceIndex, destIndex)`.  Only
`listIndex` and `sourceIndex` are checked; `destIndex` never is.  The
item is removed with `splice(sourceIndex, 1)` and re-inserted at
`realDest = destIndex < sourceIndex ? destIndex : destIndex - 1` with
`splice(realDest, 0, ...removed)`.  A bad `sourceIndex` rejects 400 but,
as the reject does not return, the two splices and the dispatch still
run (the delete splice then removes 0 or 1 elements per JavaScript
clamping).  A bad `listIndex` rejects 400 and the `.items` access on the
next line throws, so nothing else happens. -/
def moveTodo (todos : List TodoList) (success : Bool) (listIndex : Int)
    (sourceIndex : Int) (destIndex : Int) : OpResult Bool :=
  if success then
    match jsIndex? todos listIndex with
    | some l =>
      let bad := sourceIndex < 0 ∨ (l.items.length : Int) ≤ sourceIndex
      let removed := (jsSpliceDelete1 l.items sourceIndex).1
      let rest := (jsSpliceDelete1 l.items sourceIndex).2
      let realDest := if destIndex < sourceIndex then destIndex else destIndex - 1
      { result := if bad then Except.error (buildErrorResponse 400 "index out of bound")
          else Except.ok true
        store := todos.set listIndex.toNat
          { l with items := jsSpliceInsert rest realDest removed }
        dispatched := [RawMessage.moveTodo listIndex sourceIndex destIndex] }
    | none =>
      { result := Except.error (buildErrorResponse 400 "index out of bound")
        store := todos
        dispatched := [] }
  else
    { result := Except.error (buildErrorResponse 500 "internal error")
      store := todos
      dispatched := [] }

/-- `TodoApi.editTodo(listIndex, itemIndex, newValue)`.  The `||` check
short-circuits, so a bad `listIndex` rejects 400 and the indexed write on
the next line throws on the undefined list (no mutation, no dispatch).
With a valid `listIndex`, the write `items[itemIndex] = {...newValue}`
and the dispatch always run, even after a 400 rejection for a bad
`itemIndex` (an indexed write never throws). -/
def editTodo (todos : List TodoList) (success : Bool) (listIndex : Int)
    (itemIndex : Int) (newValue : Todo) : OpResult Bool :=
  if success then
    match jsIndex? todos listIndex with
    | some l =>
      let bad := itemIndex < 0 ∨ (l.items.length : Int) ≤ itemIndex
      { result := if bad then Except.error (buildErrorResponse 400 "index out of bound")
          else Except.ok true
        store := todos.set listIndex.toNat
          { l with items := jsSetElem l.items itemIndex (copyTodo newValue) }
        dispatched := [RawMessage.editTodo listIndex itemIndex newValue] }
    | none =>
      { result := Except.error (buildErrorResponse 400 "index out of bound")
        store := todos
        dispatched := [] }
  else
    { result := Except.error (buildErrorResponse 500 "internal error")
      store := todos
      dispatched := [] }

/-- A stamped message as delivered to a listener (`SocketMessage` =
`RawMessage & {sequenceId: number}`). -/
structure SocketMessage where
  sequenceId : Nat
  raw : RawMessage
deriving DecidableEq, Repr

/-- The state of `FakeSocket`: the subscribed clients (modelled by
identity keys, since `removeListener` compares with `!==`) and the
`sequenceId` field. -/
structure FakeSocket where
  clients : List Nat
  sequenceId : Nat
deriving DecidableEq, Repr

/-- The `FakeSocket` constructor: no clients, `sequenceId = 0`. -/
def FakeSocket.init : FakeSocket :=
  { clients := [], sequenceId := 0 }

/-- `FakeSocket.addListener(client)`: unconditionally pushes the client
onto the array (no membership check). -/
def addListener (s : FakeSocket) (c : Nat) : FakeSocket :=
  { s with clients := s.clients ++ [c] }

/-- `FakeSocket.removeListener(client)`: keeps exactly the clients that
are not (reference-)equal to the argument. -/
def removeListener (s : FakeSocket) (c : Nat) : FakeSocket :=
  { s with clients := s.clients.filter (fun x => x ≠ c) }

/-- `FakeSocket.dispatchMessage(message)`: stamps the message with the
CURRENT `sequenceId` for each client, in array (= subscription) order.
The source never increments `this.sequenceId`, so the state is returned
unchanged.  The result pairs each receiving client with the message it
was handed. -/
def dispatchMessage (s : FakeSocket) (m : RawMessage) :
    FakeSocket × List (Nat × SocketMessage) :=
  (s, s.clients.map (fun c => (c, { sequenceId := s.sequenceId, raw := m })))

/-- One interaction with the fake socket, for stating properties about
runs: subscribe, unsubscribe, or dispatch. -/
inductive SocketOp where
  | add (c : Nat)
  | remove (c : Nat)
  | dispatch (m : RawMessage)
deriving DecidableEq, Repr

/-- Apply one socket interaction, collecting the deliveries it causes. -/
def applyOp (s : FakeSocket) : SocketOp → FakeSocket × List (Nat × SocketMessage)
  | SocketOp.add c => (addListener s c, [])
  | SocketOp.remove c => (removeListener s c, [])
  | SocketOp.dispatch m => dispatchMessage s m

/-- Run a sequence of socket interactions, collecting all deliveries in
order. -/
def runOps (s : FakeSocket) : List SocketOp → FakeSocket × List (Nat × SocketMessage)
  | [] => (s, [])
  | op :: ops =>
    let step := applyOp s op
    let rest := runOps step.1 ops
    (rest.1, step.2 ++ rest.2)

/-! ## Helper lemmas -/

/-- The spread copy of a `Todo` is the identity on values. -/
theorem copyTodo_eq_id : copyTodo = id :=
  rfl

/-- The per-list deep copy made by `getTodoLists` is structurally equal to
the original list. -/
theorem copyTodoList_eq (l : TodoList) : copyTodoList l = l := by
  simp [copyTodoList, copyTodo_eq_id]

/-- The deep copy taken by `getTodoLists` is structurally equal to the
store it copies. -/
theorem map_copyTodoList : ∀ todos : List TodoList, todos.map copyTodoList = todos
  | [] => rfl
  | l :: ls => by rw [List.map_cons, copyTodoList_eq, map_copyTodoList ls]

/-- `insertIdx` at an in-range position is take-cons-drop. -/
theorem insertIdx_eq_take_cons_drop (l : List α) (n : Nat) (h : n ≤ l.length)
    (x : α) : l.insertIdx n x = l.take n ++ x :: l.drop n := by
  induction l generalizing n with
  | nil =>
    cases n with
    | zero => simp
    | succ n => simp at h
  | cons a l ih =>
    cases n with
    | zero => simp
    | succ n =>
      simp only [List.insertIdx_succ_cons, List.take_succ_cons, List.drop_succ_cons,
        List.cons_append]
      rw [ih n (by simpa using h)]

/-! ## Claim theorems -/

/-- C5: for every operation, a failed random success draw rejects with a
500 "internal error" envelope, leaves the store untouched, and dispatches
nothing. -/
theorem C5_transient_failure_no_effect (todos : List TodoList) (name : String)
    (li ti si di ii : Int) (item newValue : Todo) :
    getTodoLists todos false
      = { result := Except.error { code := 500, description := "internal error" },
          store := todos, dispatched := [] } ∧
    createList todos false name
      = { result := Except.error { code := 500, description := "internal error" },
          store := todos, dispatched := [] } ∧
    deleteList todos false li
      = { result := Except.error { code := 500, description := "internal error" },
          store := todos, dispatched := [] } ∧
    addTodo todos false li item
      = { result := Except.error { code := 500, description := "internal error" },
          store := todos, dispatched := [] } ∧
    removeTodo todos false li ti
      = { result := Except.error { code := 500, description := "internal error" },
          store := todos, dispatched := [] } ∧
    moveTodo todos false li si di
      = { result := Except.error { code := 500, description := "internal error" },
          store := todos, dispatched := [] } ∧
    editTodo todos false li ii newValue
      = { result := Except.error { code := 500, description := "internal error" },
          store := todos, dispatched := [] } :=
  ⟨rfl, rfl, rfl, rfl, rfl, rfl, rfl⟩

/-- C6: a successful `createList` appends exactly one list with the given
name and empty items, leaves all pre-existing lists unchanged, resolves
with the store's length before the call, and dispatches one `createList`
message carrying the new (empty) list. -/
theorem C6_createList_appends (todos : List TodoList) (name : String) :
    createList todos true name
      = { result := Except.ok (todos.length : Int),
          store := todos ++ [{ items := [], name := name }],
          dispatched := [RawMessage.createList { items := [], name := name }] } := by
  simp [createList]

/-- Concrete item used in counterexamples and witnesses. -/
def tA : Todo := { description := "A", done := false }

/-- Concrete item used in counterexamples and witnesses. -/
def tB : Todo := { description := "B", done := false }

/-- Concrete item used in counterexamples and witnesses. -/
def tC : Todo := { description := "C", done := false }

/-- Concrete item used in counterexamples and witnesses. -/
def tD : Todo := { description := "D", done := false }

/-- C1 (code bug): `deleteList(-1)` on a one-list store rejects with the
400 envelope, yet because the `reject` does not return, `splice(-1, 1)`
still runs and removes the LAST list (JavaScript counts a negative splice
start from the end), and a `deleteList` notification is still dispatched:
the store is not left as it was. -/
theorem C1_deleteList_bad_index_still_mutates :
    deleteList [{ items := [], name := "a" }] true (-1)
      = { result := Except.error { code := 400, description := "index out of bound" },
          store := [],
          dispatched := [RawMessage.deleteList (-1)] } ∧
    ([] : List TodoList) ≠ [{ items := [], name := "a" }] := by
  refine ⟨rfl, by decide⟩

/-- C4 (code bug): `removeTodo(0, 1)` on a store whose only list has one
item rejects with the 400 envelope and removes nothing, yet still
dispatches a `removeTodo` notification — an error outcome with a
notification, which the claim rules out. -/
theorem C4_removeTodo_error_still_dispatches :
    removeTodo [{ items := [tA], name := "l" }] true 0 1
      = { result := Except.error { code := 400, description := "index out of bound" },
          store := [{ items := [tA], name := "l" }],
          dispatched := [RawMessage.removeTodo 0 1] } :=
  rfl

/-- C2 (code bug): `FakeSocket.dispatchMessage` stamps every message with
the current `sequenceId` but never increments the field, so with one
listener subscribed, two consecutive dispatches both deliver
`sequenceId = 0` (and the counter is still 0 afterwards), not the
gap-free 0, 1 the claim requires. -/
theorem C2_sequenceId_never_incremented :
    ((dispatchMessage (addListener FakeSocket.init 0) (RawMessage.deleteList 0)).2.map
        (fun d => d.2.sequenceId) = [0]) ∧
    ((dispatchMessage
        (dispatchMessage (addListener FakeSocket.init 0) (RawMessage.deleteList 0)).1
        (RawMessage.createList { items := [], name := "a" })).2.map
        (fun d => d.2.sequenceId) = [0]) ∧
    ((dispatchMessage
        (dispatchMessage (addListener FakeSocket.init 0) (RawMessage.deleteList 0)).1
        (RawMessage.createList { items := [], name := "a" })).2.map
        (fun d => d.2.sequenceId) ≠ [1]) ∧
    ((dispatchMessage
        (dispatchMessage (addListener FakeSocket.init 0) (RawMessage.deleteList 0)).1
        (RawMessage.createList { items := [], name := "a" })).1.sequenceId = 0) := by
  refine ⟨rfl, rfl, by decide, rfl⟩

/-- C7: a successful `getTodoLists` mutates nothing and dispatches
nothing; its result is the deep per-item copy of the store, which is
structurally equal to the store; and a second successful call with no
intervening mutation returns a structurally equal result. -/
theorem C7_getTodoLists_pure_copy (todos : List TodoList) :
    (getTodoLists todos true).store = todos ∧
    (getTodoLists todos true).dispatched = [] ∧
    (getTodoLists todos true).result = Except.ok (todos.map copyTodoList) ∧
    (getTodoLists todos true).result = Except.ok todos ∧
    (getTodoLists (getTodoLists todos true).store true).result
      = (getTodoLists todos true).result := by
  refine ⟨rfl, rfl, rfl, ?_, rfl⟩
  simp [getTodoLists, map_copyTodoList]

/-- C3 counterexample: with `destIndex = sourceIndex = 1` on the item
sequence `[A, B, C]`, `moveTodo` computes `realDest = destIndex - 1 = 0`
(the code uses `destIndex < sourceIndex`, not `≤`), so the list becomes
`[B, A, C]` instead of being left unchanged as the claim states. -/
theorem C3_dest_eq_source_counterexample :
    (moveTodo [{ items := [tA, tB, tC], name := "l" }] true 0 1 1).store
      = [{ items := [tB, tA, tC], name := "l" }] ∧
    (moveTodo [{ items := [tA, tB, tC], name := "l" }] true 0 1 1).store
      ≠ [{ items := [tA, tB, tC], name := "l" }] := by
  refine ⟨rfl, by decide⟩

/-- A `jsIndex?` read at a natural index is `List.get?`. -/
theorem jsIndex_natCast (l : List α) (n : Nat) : jsIndex? l (n : Int) = l.get? n := by
  simp [jsIndex?]

/-- The effective splice start at an in-range natural index is the index
itself. -/
theorem jsActualIndex_natCast (len : Nat) (n : Nat) (h : n ≤ len) :
    jsActualIndex len (n : Int) = n := by
  unfold jsActualIndex
  rw [if_neg (by omega)]
  omega

/-- `splice(n, 1)` at an in-range natural index removes exactly the n-th
element. -/
theorem jsSpliceDelete1_natCast (l : List α) (n : Nat) (h : n < l.length) :
    jsSpliceDelete1 l (n : Int) = ([l.get ⟨n, h⟩], l.eraseIdx n) := by
  simp only [jsSpliceDelete1, jsActualIndex_natCast l.length n h.le]
  rw [List.take_one_drop_eq_of_lt_length h]

/-- `splice(n, 0, x)` at an in-range natural index is `insertIdx`. -/
theorem jsSpliceInsert_single (l : List α) (n : Nat) (h : n ≤ l.length) (x : α) :
    jsSpliceInsert l (n : Int) [x] = l.insertIdx n x := by
  simp only [jsSpliceInsert, jsActualIndex_natCast l.length n h]
  rw [insertIdx_eq_take_cons_drop l n h x]
  simp

/-- C3 (amended): for every store, valid `listIndex`, valid `sourceIndex`
and valid `destIndex` with `destIndex ≠ sourceIndex`, a successful
`moveTodo` removes the item at `sourceIndex` and re-inserts it at
`destIndex - 1` when `destIndex` is GREATER THAN OR EQUAL to
`sourceIndex` (the code tests `destIndex < sourceIndex`, so equality
falls into the `- 1` branch and does NOT leave the list unchanged), and
at `destIndex` when `destIndex` is strictly less than `sourceIndex`; in
particular on `[A, B, C, D]`, source 0 / dest 3 yields `[B, C, A, D]`
and source 3 / dest 0 yields `[D, A, B, C]`. -/
theorem C3_moveTodo_amended (todos : List TodoList) (li si di : Nat)
    (L : TodoList) (hL : todos.get? li = some L)
    (hsi : si < L.items.length) (hdi : di < L.items.length) (hne : di ≠ si) :
    moveTodo todos true li si di
      = { result := Except.ok true,
          store := todos.set li { L with items := (L.items.eraseIdx si).insertIdx (if di < si then di else di - 1) (L.items.get ⟨si, hsi⟩) },
          dispatched := [RawMessage.moveTodo li si di] } := by
  have hjs : jsIndex? todos (li : Int) = some L := by
    rw [jsIndex_natCast]; exact hL
  have hrest : (L.items.eraseIdx si).length = L.items.length - 1 := by
    rw [List.length_eraseIdx]
    simp [hsi]
  simp only [moveTodo, hjs]
  rw [if_pos trivial]
  rw [if_neg (show ¬((si : Int) < 0 ∨ ((L.items.length : Nat) : Int) ≤ (si : Int)) by omega)]
  rw [jsSpliceDelete1_natCast L.items si hsi]
  simp only [Int.toNat_natCast]
  rcases Nat.lt_or_ge di si with hlt | hge
  · rw [if_pos (show (di : Int) < (si : Int) by exact_mod_cast hlt), if_pos hlt]
    rw [jsSpliceInsert_single _ di (by omega) _]
  · have hgt : si < di := by omega
    rw [if_neg (show ¬((di : Int) < (si : Int)) by exact_mod_cast Nat.not_lt.mpr hge),
      if_neg (Nat.not_lt.mpr hge)]
    rw [show (di : Int) - 1 = ((di - 1 : Nat) : Int) by omega]
    rw [jsSpliceInsert_single _ (di - 1) (by omega) _]

/-- Witness for C3 (amended): the spec's own example — moving the item at
source 0 to dest 3 in `[A, B, C, D]` yields `[B, C, A, D]`. -/
theorem C3_moveTodo_amended_witness :
    moveTodo [{ items := [tA, tB, tC, tD], name := "l" }] true 0 0 3
      = { result := Except.ok true,
          store := [{ items := [tB, tC, tA, tD], name := "l" }],
          dispatched := [RawMessage.moveTodo 0 0 3] } :=
  C3_moveTodo_amended [{ items := [tA, tB, tC, tD], name := "l" }] 0 0 3
    { items := [tA, tB, tC, tD], name := "l" } rfl (by decide) (by decide) (by decide)

/-- Inserting past the end of the array: `splice` clamps the start to the
length, so the values land at the end. -/
theorem jsSpliceInsert_ge (l : List α) (s : Int) (h : (l.length : Int) ≤ s)
    (vs : List α) : jsSpliceInsert l s vs = l ++ vs := by
  unfold jsSpliceInsert jsActualIndex
  rw [if_neg (by omega)]
  rw [show min s.toNat l.length = l.length by omega]
  simp

/-- Inserting at a negative position: `splice` counts it from the end,
clamped below at 0. -/
theorem jsSpliceInsert_neg (l : List α) (s : Int) (h : s < 0) (x : α) :
    jsSpliceInsert l s [x] = l.insertIdx ((l.length : Int) + s).toNat x := by
  unfold jsSpliceInsert jsActualIndex
  rw [if_pos h]
  rw [insertIdx_eq_take_cons_drop l (((l.length : Int) + s).toNat) (by omega) x]
  simp

/-- C10: `moveTodo` never bounds-checks `destIndex`: with a valid
`listIndex` and `sourceIndex`, the call resolves `ok true` (never a 400)
and dispatches its one message for EVERY `destIndex`; the insertion
follows splice semantics — a `destIndex` at or beyond the length lands
the item at the end (the insert position `destIndex - 1` is clamped to
the remaining length), and a negative `destIndex` is counted from the
end of the remaining sequence, clamped below at position 0. -/
theorem C10_moveTodo_no_destIndex_check (todos : List TodoList) (li si : Nat)
    (L : TodoList) (hL : todos.get? li = some L) (hsi : si < L.items.length)
    (di : Int) :
    (moveTodo todos true li si di).result = Except.ok true ∧
    (moveTodo todos true li si di).dispatched = [RawMessage.moveTodo li si di] ∧
    ((L.items.length : Int) ≤ di →
      (moveTodo todos true li si di).store = todos.set li { L with items := L.items.eraseIdx si ++ [L.items.get ⟨si, hsi⟩] }) ∧
    (di < 0 →
      (moveTodo todos true li si di).store = todos.set li { L with items := (L.items.eraseIdx si).insertIdx ((L.items.length : Int) - 1 + di).toNat (L.items.get ⟨si, hsi⟩) }) := by
  have hjs : jsIndex? todos (li : Int) = some L := by
    rw [jsIndex_natCast]; exact hL
  have hrest : (L.items.eraseIdx si).length = L.items.length - 1 := by
    rw [List.length_eraseIdx]
    simp [hsi]
  simp only [moveTodo, hjs]
  rw [if_pos trivial]
  rw [if_neg (show ¬((si : Int) < 0 ∨ ((L.items.length : Nat) : Int) ≤ (si : Int)) by omega)]
  rw [jsSpliceDelete1_natCast L.items si hsi]
  simp only [Int.toNat_natCast]
  refine ⟨trivial, trivial, ?_, ?_⟩
  · intro hd
    rw [if_neg (show ¬(di < (si : Int)) by omega)]
    rw [jsSpliceInsert_ge _ (di - 1) (by omega) _]
  · intro hd
    rw [if_pos (show di < (si : Int) by omega)]
    rw [jsSpliceInsert_neg _ di hd _]
    rw [show ((L.items.eraseIdx si).length : Int) + di = (L.items.length : Int) - 1 + di by omega]

/-- Witness for C10: moving source 1 of `[A, B, C]` to `destIndex = -5`
succeeds (no 400) and inserts at the front (negative position clamped),
yielding `[B, A, C]`. -/
theorem C10_moveTodo_no_destIndex_check_witness :
    (moveTodo [{ items := [tA, tB, tC], name := "l" }] true 0 1 (-5)).result = Except.ok true ∧
    (moveTodo [{ items := [tA, tB, tC], name := "l" }] true 0 1 (-5)).store = [{ items := [tB, tA, tC], name := "l" }] := by
  have h := C10_moveTodo_no_destIndex_check [{ items := [tA, tB, tC], name := "l" }] 0 1
    { items := [tA, tB, tC], name := "l" } rfl (by decide) (-5)
  exact ⟨h.1, h.2.2.2 (by decide)⟩

/-- `dispatchMessage` delivers to exactly the clients currently in the
array, in array order (i.e. subscription order, since `addListener`
appends). -/
theorem dispatch_targets (s : FakeSocket) (m : RawMessage) :
    (dispatchMessage s m).2.map Prod.fst = s.clients := by
  simp only [dispatchMessage, List.map_map]
  rw [show (Prod.fst ∘ fun x : Nat => (x, ({ sequenceId := s.sequenceId, raw := m } : SocketMessage))) = id from rfl]
  simp

/-- A client absent from the array receives nothing from any run of
socket interactions that never re-subscribes it. -/
theorem runOps_not_delivered (c : Nat) (ops : List SocketOp) :
    ∀ (s : FakeSocket), c ∉ s.clients → SocketOp.add c ∉ ops →
      ∀ d ∈ (runOps s ops).2, d.1 ≠ c := by
  induction ops with
  | nil =>
    intro s hs hops d hd
    simp [runOps] at hd
  | cons op ops ih =>
    intro s hs hops d hd
    simp only [runOps, List.mem_append] at hd
    have hops1 : op ≠ SocketOp.add c := fun h => hops (by simp [h])
    have hops2 : SocketOp.add c ∉ ops := fun h => hops (by simp [h])
    have hclients : c ∉ (applyOp s op).1.clients := by
      cases op with
      | add c2 =>
        have hc2 : c2 ≠ c := fun h => hops1 (by rw [h])
        simp [applyOp, addListener]
        exact ⟨hs, fun h => hc2 h.symm⟩
      | remove c2 =>
        simp only [applyOp, removeListener]
        intro hmem
        exact hs (List.mem_of_mem_filter hmem)
      | dispatch m =>
        simpa [applyOp, dispatchMessage] using hs
    rcases hd with hd | hd
    · cases op with
      | add c2 => simp [applyOp] at hd
      | remove c2 => simp [applyOp] at hd
      | dispatch m =>
        simp only [applyOp, dispatchMessage, List.mem_map] at hd
        obtain ⟨x, hx, hxd⟩ := hd
        intro hdc
        rw [← hxd] at hdc
        simp at hdc
        rw [hdc] at hx
        exact hs hx
    · exact ih _ hclients hops2 d hd

/-- C8: `removeListener` on an absent client leaves the state unchanged
(idempotent unsubscribe); after removal, the client receives no delivery
from any later run of interactions (that does not re-subscribe it); and
each dispatch delivers to the clients in subscription order —
`addListener` appends, and the delivery targets are the client array in
order. -/
theorem C8_unsubscribe (s : FakeSocket) (c c1 c2 : Nat) (m : RawMessage)
    (ops : List SocketOp) (hops : SocketOp.add c ∉ ops) :
    (c ∉ s.clients → removeListener s c = s) ∧
    (∀ d ∈ (runOps (removeListener s c) ops).2, d.1 ≠ c) ∧
    ((dispatchMessage (addListener (addListener s c1) c2) m).2.map Prod.fst
      = s.clients ++ [c1, c2]) := by
  refine ⟨?_, ?_, ?_⟩
  · intro hs
    simp only [removeListener]
    rw [List.filter_eq_self.mpr]
    · intro x hx
      simp
      exact fun h => hs (h ▸ hx)
  · refine runOps_not_delivered c ops _ ?_ hops
    simp only [removeListener, List.mem_filter]
    intro h
    simpa using h.2
  · rw [dispatch_targets]
    simp [addListener]

/-- Witness for C8: a concrete state with client 7 subscribed; removing
the absent client 5 is a no-op, a later dispatch delivers nothing to 5,
and dispatching after subscribing 1 then 2 delivers to 7, 1, 2 in
order. -/
theorem C8_unsubscribe_witness :
    SocketOp.add 5 ∉ [SocketOp.dispatch (RawMessage.deleteList 0)] ∧
    ((5 ∉ ({ clients := [7], sequenceId := 3 } : FakeSocket).clients →
        removeListener { clients := [7], sequenceId := 3 } 5
          = { clients := [7], sequenceId := 3 }) ∧
      (∀ d ∈ (runOps (removeListener { clients := [7], sequenceId := 3 } 5)
          [SocketOp.dispatch (RawMessage.deleteList 0)]).2, d.1 ≠ 5) ∧
      ((dispatchMessage (addListener (addListener { clients := [7], sequenceId := 3 } 1) 2)
          (RawMessage.deleteList 0)).2.map Prod.fst = [7] ++ [1, 2])) :=
  ⟨by decide, C8_unsubscribe { clients := [7], sequenceId := 3 } 5 1 2
    (RawMessage.deleteList 0) [SocketOp.dispatch (RawMessage.deleteList 0)] (by decide)⟩

/-- C9: subscribing the same client twice (no membership check in
`addListener`) makes it occupy two positions, so a dispatch delivers to
it twice; one `removeListener` call removes both occurrences at once. -/
theorem C9_duplicate_listener (s : FakeSocket) (c : Nat) (m : RawMessage)
    (h : c ∉ s.clients) :
    (addListener (addListener s c) c).clients.count c = 2 ∧
    ((dispatchMessage (addListener (addListener s c) c) m).2.map Prod.fst).count c = 2 ∧
    (removeListener (addListener (addListener s c) c) c).clients = s.clients := by
  have hcount : s.clients.count c = 0 := List.count_eq_zero.mpr h
  have hclients : (addListener (addListener s c) c).clients = s.clients ++ [c, c] := by
    simp [addListener]
  refine ⟨?_, ?_, ?_⟩
  · rw [hclients, List.count_append]
    simp [hcount]
  · rw [dispatch_targets, hclients, List.count_append]
    simp [hcount]
  · simp only [removeListener, addListener, List.filter_append]
    rw [List.filter_eq_self.mpr]
    · simp
    · intro x hx
      simp
      exact fun hxc => h (hxc ▸ hx)

/-- Witness for C9: with client 0 subscribed, subscribing client 1 twice
makes it receive a dispatch twice; one removal brings the set back to
just client 0. -/
theorem C9_duplicate_listener_witness :
    1 ∉ ({ clients := [0], sequenceId := 5 } : FakeSocket).clients ∧
    ((addListener (addListener { clients := [0], sequenceId := 5 } 1) 1).clients.count 1 = 2 ∧
      ((dispatchMessage (addListener (addListener { clients := [0], sequenceId := 5 } 1) 1)
        (RawMessage.deleteList 0)).2.map Prod.fst).count 1 = 2 ∧
      (removeListener (addListener (addListener { clients := [0], sequenceId := 5 } 1) 1) 1).clients
        = ({ clients := [0], sequenceId := 5 } : FakeSocket).clients) :=
  ⟨by decide, C9_duplicate_listener { clients := [0], sequenceId := 5 } 1
    (RawMessage.deleteList 0) (by decide)⟩
